import Mathlib

/-!
Verification of the addressAPI geocoding gateway.

The development shallowly embeds the transformation/validation logic of the
repository: the upstream HTTP client (src/clients/nominatimClient.py), the
service layer (src/services/nominatimservices.py), the response DTOs
(src/DTOs/nominatimDtos.py) and the parameter validation performed by the
request handlers (src/controllers/nominatimcontroller.py together with the
validation handler of src/main.py).

The outbound HTTP round trip is replaced by an explicit `ProviderResponse`
argument (status code and decoded JSON body); every function that in the
source performs the round trip here consumes that argument instead, and
additionally reports whether the outbound call was reached.
-/

set_option autoImplicit false
set_option linter.unusedVariables false

namespace AddressAPI

/-- Python `str.strip()` on the query string: leading and trailing
whitespace characters are removed. -/
def pyStrip (s : String) : String :=
  ⟨((s.data.dropWhile Char.isWhitespace).reverse.dropWhile
      Char.isWhitespace).reverse⟩

/-- A decoded JSON value, as produced by `response.json()`.  Numbers are
modelled as rationals, covering both the integers (`place_id`, `osm_id`) and
the fractional values (`importance`) occurring in provider payloads. -/
inductive Json where
  | null
  | bool (b : Bool)
  | num (q : ℚ)
  | str (s : String)
  | arr (elems : List Json)
  | obj (fields : List (String × Json))
  deriving Repr

/-- Lookup of a key in a decoded JSON object, mirroring Python dict access:
the first binding of the key wins, a missing key gives `none`. -/
def dictGet : List (String × Json) → String → Option Json
  | [], _ => none
  | (k, v) :: rest, key => if k = key then some v else dictGet rest key

/-- Python truthiness of a decoded JSON value, as used by
`if location_data.get("address"):` — `None`, `False`, `0`, `""`, `[]` and
`{}` are falsy, everything else is truthy. -/
def Json.truthy : Json → Bool
  | .null => false
  | .bool b => b
  | .num q => q ≠ 0
  | .str s => ¬ s.isEmpty
  | .arr elems => ¬ elems.isEmpty
  | .obj fields => ¬ fields.isEmpty

/-- The failure outcomes of the service, one constructor per raise site.
In the source every failure is an `HTTPException(status_code, detail)`;
the constructor records the site, `statusCode` below recovers the HTTP
status the caller observes.  `contractViolation` stands for the unhandled
`KeyError`/pydantic `ValidationError` raised when a provider record is
missing a required field or carries a wrongly-typed value, which the
framework reports as a 500. -/
inductive ServiceError where
  | emptyQuery
  | latOutOfRange
  | lonOutOfRange
  | noSearchResults (query : String)
  | noAddressFound (lat lon : ℚ)
  | upstreamStatus (status : Nat)
  | unexpectedResponse
  | contractViolation (field : String)
  deriving Repr, DecidableEq

/-- The HTTP status code of each failure, as produced by the raise sites of
the source (`HTTPException(status_code=...)`) or by the framework for an
unhandled exception. -/
def ServiceError.statusCode : ServiceError → Nat
  | .emptyQuery => 400
  | .latOutOfRange => 400
  | .lonOutOfRange => 400
  | .noSearchResults _ => 404
  | .noAddressFound _ _ => 404
  | .upstreamStatus s => s
  | .unexpectedResponse => 500
  | .contractViolation _ => 500

/-- The spec taxonomy class `InvalidInput`: the pre-call validation failures
of the service layer (empty query, coordinate out of range). -/
def ServiceError.isInvalidInput : ServiceError → Bool
  | .emptyQuery => true
  | .latOutOfRange => true
  | .lonOutOfRange => true
  | _ => false

/-- AddressDTO of src/DTOs/nominatimDtos.py: eight optional string fields. -/
structure AddressDTO where
  house_number : Option String
  road : Option String
  neighbourhood : Option String
  city : Option String
  state : Option String
  postcode : Option String
  country : Option String
  country_code : Option String
  deriving Repr, DecidableEq

/-- LocationDTO of src/DTOs/nominatimDtos.py. -/
structure LocationDTO where
  place_id : ℤ
  licence : String
  osm_type : Option String
  osm_id : Option ℤ
  lat : String
  lon : String
  display_name : String
  class_type : Option String
  type : Option String
  importance : Option ℚ
  address : Option AddressDTO
  deriving Repr, DecidableEq

/-- GeocodeSearchResponseDTO of src/DTOs/nominatimDtos.py. -/
structure GeocodeSearchResponseDTO where
  results : List LocationDTO
  total : Nat
  query : String
  deriving Repr, DecidableEq

/-- ReverseGeocodeResponseDTO of src/DTOs/nominatimDtos.py: the Location
fields minus `importance`, plus the echoed input coordinates. -/
structure ReverseGeocodeResponseDTO where
  place_id : ℤ
  licence : String
  osm_type : Option String
  osm_id : Option ℤ
  lat : String
  lon : String
  display_name : String
  class_type : Option String
  type : Option String
  address : Option AddressDTO
  lat_input : ℚ
  lon_input : ℚ
  deriving Repr, DecidableEq

/-- The provider side of one outbound round trip: the HTTP status and the
decoded body that `response.json()` yields. -/
structure ProviderResponse where
  status : Nat
  body : Json
  deriving Repr

/-- `record[key]` read into a pydantic `int` field: a missing key raises
`KeyError`, a non-integral value fails pydantic validation; both surface as
the internal 500 class. -/
def requireInt (fields : List (String × Json)) (key : String) : Except ServiceError ℤ :=
  match dictGet fields key with
  | some (.num q) => if q.den = 1 then .ok q.num else .error (.contractViolation key)
  | some _ => .error (.contractViolation key)
  | none => .error (.contractViolation key)

/-- `record[key]` read into a pydantic `str` field. -/
def requireStr (fields : List (String × Json)) (key : String) : Except ServiceError String :=
  match dictGet fields key with
  | some (.str s) => .ok s
  | some _ => .error (.contractViolation key)
  | none => .error (.contractViolation key)

/-- `record.get(key)` read into a pydantic `Optional[str]` field: absent key
or JSON null become `None`, a present non-string fails validation. -/
def optStr (fields : List (String × Json)) (key : String) : Except ServiceError (Option String) :=
  match dictGet fields key with
  | none => .ok none
  | some .null => .ok none
  | some (.str s) => .ok (some s)
  | some _ => .error (.contractViolation key)

/-- `record.get(key)` read into a pydantic `Optional[int]` field. -/
def optInt (fields : List (String × Json)) (key : String) : Except ServiceError (Option ℤ) :=
  match dictGet fields key with
  | none => .ok none
  | some .null => .ok none
  | some (.num q) => if q.den = 1 then .ok (some q.num) else .error (.contractViolation key)
  | some _ => .error (.contractViolation key)

/-- `record.get(key)` read into a pydantic `Optional[float]` field. -/
def optNum (fields : List (String × Json)) (key : String) : Except ServiceError (Option ℚ) :=
  match dictGet fields key with
  | none => .ok none
  | some .null => .ok none
  | some (.num q) => .ok (some q)
  | some _ => .error (.contractViolation key)

/-- `record.get("licence", "")` read into a pydantic `str` field: an absent
key is replaced by the empty string; a present non-string value (JSON null
included, since `.get` then returns `None`) fails validation. -/
def getLicence (fields : List (String × Json)) : Except ServiceError String :=
  match dictGet fields "licence" with
  | none => .ok ""
  | some (.str s) => .ok s
  | some _ => .error (.contractViolation "licence")

namespace NominatimService

/-- `NominatimService._build_address_dto` (src/services/nominatimservices.py,
lines 222-241): every field is an optional pass-through by name. -/
def build_address_dto (address_data : List (String × Json)) : Except ServiceError AddressDTO := do
  let house_number ← optStr address_data "house_number"
  let road ← optStr address_data "road"
  let neighbourhood ← optStr address_data "neighbourhood"
  let city ← optStr address_data "city"
  let state ← optStr address_data "state"
  let postcode ← optStr address_data "postcode"
  let country ← optStr address_data "country"
  let country_code ← optStr address_data "country_code"
  return { house_number, road, neighbourhood, city, state, postcode, country, country_code }

/-- The address-embedding step shared verbatim by `reverse_geocode`
(lines 174-177) and `_build_location_dto` (lines 204-206):
`address = None; if data.get("address"): address = build(data["address"])`.
A truthy non-object value makes `_build_address_dto` raise (AttributeError,
internal 500 class). -/
def extractAddress (record : List (String × Json)) : Except ServiceError (Option AddressDTO) :=
  match dictGet record "address" with
  | none => .ok none
  | some j =>
    if j.truthy then
      match j with
      | .obj address_data => (build_address_dto address_data).map some
      | _ => .error (.contractViolation "address")
    else .ok none

/-- `NominatimService._build_location_dto` (lines 194-220).  A non-object
raw record makes the field subscripts raise (internal 500 class). -/
def build_location_dto (location_data : Json) : Except ServiceError LocationDTO := do
  match location_data with
  | .obj record =>
    let address ← extractAddress record
    let place_id ← requireInt record "place_id"
    let licence ← getLicence record
    let osm_type ← optStr record "osm_type"
    let osm_id ← optInt record "osm_id"
    let lat ← requireStr record "lat"
    let lon ← requireStr record "lon"
    let display_name ← requireStr record "display_name"
    let class_type ← optStr record "class"
    let type ← optStr record "type"
    let importance ← optNum record "importance"
    return { place_id, licence, osm_type, osm_id, lat, lon, display_name,
             class_type, type, importance, address }
  | _ => .error (.contractViolation "record")

/-- The transformation loop of `search_address` (lines 125-128): each raw
record is mapped in order, the first failure aborts the whole operation. -/
def build_locations : List Json → Except ServiceError (List LocationDTO)
  | [] => .ok []
  | location_data :: rest => do
    let location ← build_location_dto location_data
    let locations ← build_locations rest
    return location :: locations

end NominatimService

namespace NominatimClient

/-- `NominatimClient.search_address` (src/clients/nominatimClient.py,
lines 63-136), with the HTTP round trip replaced by the provider response:
non-200 status mirrors the provider status, a non-list body is the 500
contract-violation branch, otherwise the decoded list is returned. -/
def search_address (resp : ProviderResponse) : Except ServiceError (List Json) :=
  if resp.status ≠ 200 then .error (.upstreamStatus resp.status)
  else
    match resp.body with
    | .arr data => .ok data
    | _ => .error .unexpectedResponse

/-- Membership test `"error" in data` on a decoded JSON body: key membership
for an object, element membership for a list.  (For the remaining shapes
Python raises; those bodies fail with the same internal 500 class one step
later in the service, so they are mapped to `false` here.) -/
def bodyHasErrorField : Json → Bool
  | .obj fields => (dictGet fields "error").isSome
  | .arr elems => elems.any fun j => match j with | .str s => s = "error" | _ => false
  | _ => false

/-- `NominatimClient.reverse_geocode` (lines 138-212): non-200 status mirrors
the provider status; a 200 body containing an `"error"` field is the
NotFound branch; otherwise the decoded record is returned. -/
def reverse_geocode (lat lon : ℚ) (resp : ProviderResponse) : Except ServiceError Json :=
  if resp.status ≠ 200 then .error (.upstreamStatus resp.status)
  else
    if bodyHasErrorField resp.body then .error (.noAddressFound lat lon)
    else .ok resp.body

end NominatimClient

namespace NominatimService

/-- `NominatimService.search_address` (src/services/nominatimservices.py,
lines 83-134): strip the query, reject an empty one, call the client, turn
an empty list into NotFound, otherwise map every record in order.  A raised
client or mapping error propagates unchanged (exception propagation is the
`Except` bind). -/
def search_address (query : String) (limit : ℤ) (resp : ProviderResponse) :
    Except ServiceError GeocodeSearchResponseDTO :=
  if (pyStrip query).isEmpty then .error .emptyQuery
  else
    NominatimClient.search_address resp >>= fun search_data =>
      if search_data.isEmpty then .error (.noSearchResults (pyStrip query))
      else
        build_locations search_data >>= fun locations =>
          .ok ⟨locations, locations.length, pyStrip query⟩

/-- Whether `search_address` reaches its outbound client call (line 115):
in the source that call is the statement immediately after the emptiness
check, so it is reached exactly when the stripped query is non-empty. -/
def search_reaches_upstream (query : String) : Bool :=
  !(pyStrip query).isEmpty

/-- The DTO construction of `reverse_geocode` (lines 174-192): the address
embedding followed by the `ReverseGeocodeResponseDTO(...)` call, reading
the raw record field by field and echoing the caller coordinates. -/
def build_reverse_dto (lat lon : ℚ) (reverse_data : Json) :
    Except ServiceError ReverseGeocodeResponseDTO := do
  match reverse_data with
  | .obj record =>
    let address ← extractAddress record
    let place_id ← requireInt record "place_id"
    let licence ← getLicence record
    let osm_type ← optStr record "osm_type"
    let osm_id ← optInt record "osm_id"
    let lat_str ← requireStr record "lat"
    let lon_str ← requireStr record "lon"
    let display_name ← requireStr record "display_name"
    let class_type ← optStr record "class"
    let type ← optStr record "type"
    return { place_id, licence, osm_type, osm_id, lat := lat_str, lon := lon_str,
             display_name, class_type, type, address, lat_input := lat, lon_input := lon }
  | _ => .error (.contractViolation "record")

/-- `NominatimService.reverse_geocode` (lines 136-192): validate the
coordinate ranges, call the client, build the response DTO; a raised client
or mapping error propagates unchanged. -/
def reverse_geocode (lat lon : ℚ) (resp : ProviderResponse) :
    Except ServiceError ReverseGeocodeResponseDTO :=
  if ¬ (-90 ≤ lat ∧ lat ≤ 90) then .error .latOutOfRange
  else if ¬ (-180 ≤ lon ∧ lon ≤ 180) then .error .lonOutOfRange
  else
    NominatimClient.reverse_geocode lat lon resp >>= fun reverse_data =>
      build_reverse_dto lat lon reverse_data

/-- Whether `reverse_geocode` reaches its outbound client call (line 172):
in the source that call is the statement immediately after the two range
checks, so it is reached exactly when both coordinates are in range. -/
def reverse_reaches_upstream (lat lon : ℚ) : Bool :=
  decide (-90 ≤ lat ∧ lat ≤ 90) && decide (-180 ≤ lon ∧ lon ≤ 180)

end NominatimService

/-- The parameter layer of `GET /api/nominatim/search`
(src/controllers/nominatimcontroller.py lines 42-45 plus the
RequestValidationError handler of src/main.py lines 114-136): a `limit`
outside `ge=1, le=50` never reaches the handler body and is answered with
status 422; otherwise the service runs and its outcome decides the status. -/
def searchEndpointStatus (q : String) (limit : ℤ) (resp : ProviderResponse) : Nat :=
  if limit < 1 ∨ 50 < limit then 422
  else
    match NominatimService.search_address q limit resp with
    | .error e => e.statusCode
    | .ok _ => 200

/-! ### Concrete sample payloads used by witnesses and counterexamples -/

/-- The fields of a well-formed raw search record carrying every optional
field. -/
def sampleFullFields : List (String × Json) :=
  [("place_id", .num ((123456 : ℤ) : ℚ)), ("licence", .str "Data ODbL"),
   ("osm_type", .str "way"), ("osm_id", .num ((99 : ℤ) : ℚ)),
   ("lat", .str "37.4224764"), ("lon", .str "-122.0842499"),
   ("display_name", .str "1600 Amphitheatre Parkway"),
   ("class", .str "place"), ("type", .str "house"),
   ("importance", .num (1/2)),
   ("address", .obj [("road", .str "Amphitheatre Parkway")])]

/-- A well-formed raw search record carrying every optional field. -/
def sampleFullRecord : Json := .obj sampleFullFields

/-- The Address built from the sample address sub-object. -/
def sampleFullAddress : AddressDTO :=
  { house_number := none, road := some "Amphitheatre Parkway",
    neighbourhood := none, city := none, state := none,
    postcode := none, country := none, country_code := none }

/-- The Location the service builds from `sampleFullRecord`. -/
def sampleFullLocation : LocationDTO :=
  { place_id := 123456, licence := "Data ODbL", osm_type := some "way",
    osm_id := some 99, lat := "37.4224764", lon := "-122.0842499",
    display_name := "1600 Amphitheatre Parkway", class_type := some "place",
    type := some "house", importance := some (1/2),
    address := some sampleFullAddress }

/-- A raw record whose `address` key maps to an empty sub-object. -/
def sampleEmptyAddressFields : List (String × Json) :=
  [("place_id", .num 7), ("lat", .str "0"), ("lon", .str "0"),
   ("display_name", .str "Y"), ("address", .obj [])]

/-- The Location built from `sampleEmptyAddressFields`: no embedded
Address. -/
def sampleEmptyAddressLocation : LocationDTO :=
  { place_id := 7, licence := "", osm_type := none, osm_id := none,
    lat := "0", lon := "0", display_name := "Y", class_type := none,
    type := none, importance := none, address := none }

/-- A raw record carrying the four directly-subscripted fields but no
`licence` key. -/
def sampleNoLicenceFields : List (String × Json) :=
  [("place_id", .num 5), ("lat", .str "1.0"), ("lon", .str "2.0"),
   ("display_name", .str "X")]

/-- The Location the service builds from `sampleNoLicenceFields`: note the
defaulted empty `licence`. -/
def sampleNoLicenceLocation : LocationDTO :=
  { place_id := 5, licence := "", osm_type := none, osm_id := none,
    lat := "1.0", lon := "2.0", display_name := "X", class_type := none,
    type := none, importance := none, address := none }

/-! ### Generic lemmas about the `Except` chains of the service -/

theorem exceptBind_ok {α β : Type} {x : Except ServiceError α}
    {f : α → Except ServiceError β} {b : β} (h : x >>= f = .ok b) :
    ∃ a, x = .ok a ∧ f a = .ok b := by
  cases x with
  | error e => simp [Bind.bind, Except.bind] at h
  | ok a => exact ⟨a, rfl, by simpa [Bind.bind, Except.bind] using h⟩

theorem exceptBind_error {α β : Type} {x : Except ServiceError α}
    {f : α → Except ServiceError β} {e : ServiceError}
    (h : x >>= f = .error e) :
    x = .error e ∨ ∃ a, x = .ok a ∧ f a = .error e := by
  cases x with
  | error e' =>
    left
    simpa [Bind.bind, Except.bind] using h
  | ok a =>
    right
    exact ⟨a, rfl, by simpa [Bind.bind, Except.bind] using h⟩

theorem exceptPure_ok {α : Type} {a b : α}
    (h : (pure a : Except ServiceError α) = .ok b) : a = b := by
  simpa [Pure.pure, Except.pure] using h

theorem exceptMap_error {α β : Type} {x : Except ServiceError α} {g : α → β}
    {e : ServiceError} (h : x.map g = .error e) : x = .error e := by
  cases x with
  | error e' => simpa [Except.map] using h
  | ok a => simp [Except.map] at h

/-! ### Shapes of the getter results -/

theorem requireInt_error_shape {fields : List (String × Json)} {k : String}
    {e : ServiceError} (h : requireInt fields k = .error e) :
    e = .contractViolation k := by
  unfold requireInt at h
  split at h <;> first | (split at h <;> simp_all) | simp_all

theorem requireStr_error_shape {fields : List (String × Json)} {k : String}
    {e : ServiceError} (h : requireStr fields k = .error e) :
    e = .contractViolation k := by
  unfold requireStr at h
  split at h <;> simp_all

theorem optStr_error_shape {fields : List (String × Json)} {k : String}
    {e : ServiceError} (h : optStr fields k = .error e) :
    e = .contractViolation k := by
  unfold optStr at h
  split at h <;> simp_all

theorem optInt_error_shape {fields : List (String × Json)} {k : String}
    {e : ServiceError} (h : optInt fields k = .error e) :
    e = .contractViolation k := by
  unfold optInt at h
  split at h <;> first | (split at h <;> simp_all) | simp_all

theorem optNum_error_shape {fields : List (String × Json)} {k : String}
    {e : ServiceError} (h : optNum fields k = .error e) :
    e = .contractViolation k := by
  unfold optNum at h
  split at h <;> simp_all

theorem getLicence_error_shape {fields : List (String × Json)}
    {e : ServiceError} (h : getLicence fields = .error e) :
    e = .contractViolation "licence" := by
  unfold getLicence at h
  split at h <;> simp_all

theorem requireInt_ok_isSome {fields : List (String × Json)} {k : String}
    {n : ℤ} (h : requireInt fields k = .ok n) : (dictGet fields k).isSome := by
  unfold requireInt at h
  split at h <;> first | (split at h <;> simp_all) | simp_all

theorem requireStr_ok {fields : List (String × Json)} {k : String}
    {s : String} (h : requireStr fields k = .ok s) :
    dictGet fields k = some (.str s) := by
  unfold requireStr at h
  split at h <;> simp_all

theorem optStr_of_none {fields : List (String × Json)} {k : String}
    (h : dictGet fields k = none) : optStr fields k = .ok none := by
  simp [optStr, h]

theorem optStr_of_str {fields : List (String × Json)} {k : String} {s : String}
    (h : dictGet fields k = some (.str s)) : optStr fields k = .ok (some s) := by
  simp [optStr, h]

theorem getLicence_of_none {fields : List (String × Json)}
    (h : dictGet fields "licence" = none) : getLicence fields = .ok "" := by
  simp [getLicence, h]

theorem requireInt_of_int {fields : List (String × Json)} {k : String}
    {n : ℤ} (h : dictGet fields k = some (.num (n : ℚ))) :
    requireInt fields k = .ok n := by
  simp [requireInt, h]

theorem requireStr_of_str {fields : List (String × Json)} {k : String}
    {s : String} (h : dictGet fields k = some (.str s)) :
    requireStr fields k = .ok s := by
  simp [requireStr, h]

theorem optInt_of_int {fields : List (String × Json)} {k : String}
    {n : ℤ} (h : dictGet fields k = some (.num (n : ℚ))) :
    optInt fields k = .ok (some n) := by
  simp [optInt, h]

theorem optNum_of_num {fields : List (String × Json)} {k : String}
    {q : ℚ} (h : dictGet fields k = some (.num q)) :
    optNum fields k = .ok (some q) := by
  simp [optNum, h]

theorem getLicence_of_str {fields : List (String × Json)} {s : String}
    (h : dictGet fields "licence" = some (.str s)) :
    getLicence fields = .ok s := by
  simp [getLicence, h]

theorem extractAddress_of_obj {record address_data : List (String × Json)}
    {addr : AddressDTO}
    (h : dictGet record "address" = some (.obj address_data))
    (hne : address_data.isEmpty = false)
    (hb : NominatimService.build_address_dto address_data = .ok addr) :
    NominatimService.extractAddress record = .ok (some addr) := by
  simp [NominatimService.extractAddress, h, Json.truthy, hne, hb, Except.map]

/-! ### Error shapes of the builders: every mapping failure is internal -/

theorem build_address_dto_error_shape {address_data : List (String × Json)}
    {e : ServiceError}
    (h : NominatimService.build_address_dto address_data = .error e) :
    ∃ f, e = .contractViolation f := by
  unfold NominatimService.build_address_dto at h
  rcases exceptBind_error h with h | ⟨_, _, h⟩
  · exact ⟨_, optStr_error_shape h⟩
  rcases exceptBind_error h with h | ⟨_, _, h⟩
  · exact ⟨_, optStr_error_shape h⟩
  rcases exceptBind_error h with h | ⟨_, _, h⟩
  · exact ⟨_, optStr_error_shape h⟩
  rcases exceptBind_error h with h | ⟨_, _, h⟩
  · exact ⟨_, optStr_error_shape h⟩
  rcases exceptBind_error h with h | ⟨_, _, h⟩
  · exact ⟨_, optStr_error_shape h⟩
  rcases exceptBind_error h with h | ⟨_, _, h⟩
  · exact ⟨_, optStr_error_shape h⟩
  rcases exceptBind_error h with h | ⟨_, _, h⟩
  · exact ⟨_, optStr_error_shape h⟩
  rcases exceptBind_error h with h | ⟨_, _, h⟩
  · exact ⟨_, optStr_error_shape h⟩
  simp [Pure.pure, Except.pure] at h

theorem extractAddress_error_shape {record : List (String × Json)}
    {e : ServiceError}
    (h : NominatimService.extractAddress record = .error e) :
    ∃ f, e = .contractViolation f := by
  unfold NominatimService.extractAddress at h
  split at h
  · simp at h
  · split at h
    · split at h
      · exact build_address_dto_error_shape (exceptMap_error h)
      · simp only [Except.error.injEq] at h
        exact ⟨"address", h.symm⟩
    · simp at h

theorem build_location_dto_error_shape {location_data : Json}
    {e : ServiceError}
    (h : NominatimService.build_location_dto location_data = .error e) :
    ∃ f, e = .contractViolation f := by
  cases location_data
  case obj record =>
    unfold NominatimService.build_location_dto at h
    rcases exceptBind_error h with h | ⟨_, _, h⟩
    · exact extractAddress_error_shape h
    rcases exceptBind_error h with h | ⟨_, _, h⟩
    · exact ⟨_, requireInt_error_shape h⟩
    rcases exceptBind_error h with h | ⟨_, _, h⟩
    · exact ⟨_, getLicence_error_shape h⟩
    rcases exceptBind_error h with h | ⟨_, _, h⟩
    · exact ⟨_, optStr_error_shape h⟩
    rcases exceptBind_error h with h | ⟨_, _, h⟩
    · exact ⟨_, optInt_error_shape h⟩
    rcases exceptBind_error h with h | ⟨_, _, h⟩
    · exact ⟨_, requireStr_error_shape h⟩
    rcases exceptBind_error h with h | ⟨_, _, h⟩
    · exact ⟨_, requireStr_error_shape h⟩
    rcases exceptBind_error h with h | ⟨_, _, h⟩
    · exact ⟨_, requireStr_error_shape h⟩
    rcases exceptBind_error h with h | ⟨_, _, h⟩
    · exact ⟨_, optStr_error_shape h⟩
    rcases exceptBind_error h with h | ⟨_, _, h⟩
    · exact ⟨_, optStr_error_shape h⟩
    rcases exceptBind_error h with h | ⟨_, _, h⟩
    · exact ⟨_, optNum_error_shape h⟩
    simp [Pure.pure, Except.pure] at h
  all_goals
    simp only [NominatimService.build_location_dto, Except.error.injEq] at h
    exact ⟨"record", h.symm⟩

theorem build_reverse_dto_error_shape {lat lon : ℚ} {reverse_data : Json}
    {e : ServiceError}
    (h : NominatimService.build_reverse_dto lat lon reverse_data = .error e) :
    ∃ f, e = .contractViolation f := by
  cases reverse_data
  case obj record =>
    unfold NominatimService.build_reverse_dto at h
    rcases exceptBind_error h with h | ⟨_, _, h⟩
    · exact extractAddress_error_shape h
    rcases exceptBind_error h with h | ⟨_, _, h⟩
    · exact ⟨_, requireInt_error_shape h⟩
    rcases exceptBind_error h with h | ⟨_, _, h⟩
    · exact ⟨_, getLicence_error_shape h⟩
    rcases exceptBind_error h with h | ⟨_, _, h⟩
    · exact ⟨_, optStr_error_shape h⟩
    rcases exceptBind_error h with h | ⟨_, _, h⟩
    · exact ⟨_, optInt_error_shape h⟩
    rcases exceptBind_error h with h | ⟨_, _, h⟩
    · exact ⟨_, requireStr_error_shape h⟩
    rcases exceptBind_error h with h | ⟨_, _, h⟩
    · exact ⟨_, requireStr_error_shape h⟩
    rcases exceptBind_error h with h | ⟨_, _, h⟩
    · exact ⟨_, requireStr_error_shape h⟩
    rcases exceptBind_error h with h | ⟨_, _, h⟩
    · exact ⟨_, optStr_error_shape h⟩
    rcases exceptBind_error h with h | ⟨_, _, h⟩
    · exact ⟨_, optStr_error_shape h⟩
    simp [Pure.pure, Except.pure] at h
  all_goals
    simp only [NominatimService.build_reverse_dto, Except.error.injEq] at h
    exact ⟨"record", h.symm⟩

theorem build_locations_error_shape :
    ∀ {xs : List Json} {e : ServiceError},
      NominatimService.build_locations xs = .error e →
      ∃ f, e = .contractViolation f := by
  intro xs
  induction xs with
  | nil => intro e h; simp [NominatimService.build_locations] at h
  | cons x rest ih =>
    intro e h
    unfold NominatimService.build_locations at h
    rcases exceptBind_error h with h | ⟨_, _, h⟩
    · exact build_location_dto_error_shape h
    rcases exceptBind_error h with h | ⟨_, _, h⟩
    · exact ih h
    simp [Pure.pure, Except.pure] at h

/-! ### Eliminations of successful builds -/

theorem build_location_dto_ok_elim {record : List (String × Json)}
    {loc : LocationDTO}
    (h : NominatimService.build_location_dto (.obj record) = .ok loc) :
    NominatimService.extractAddress record = .ok loc.address ∧
    requireInt record "place_id" = .ok loc.place_id ∧
    getLicence record = .ok loc.licence ∧
    optStr record "osm_type" = .ok loc.osm_type ∧
    optInt record "osm_id" = .ok loc.osm_id ∧
    requireStr record "lat" = .ok loc.lat ∧
    requireStr record "lon" = .ok loc.lon ∧
    requireStr record "display_name" = .ok loc.display_name ∧
    optStr record "class" = .ok loc.class_type ∧
    optStr record "type" = .ok loc.type ∧
    optNum record "importance" = .ok loc.importance := by
  unfold NominatimService.build_location_dto at h
  obtain ⟨address, hA, h⟩ := exceptBind_ok h
  obtain ⟨place_id, hP, h⟩ := exceptBind_ok h
  obtain ⟨licence, hL, h⟩ := exceptBind_ok h
  obtain ⟨osm_type, hOT, h⟩ := exceptBind_ok h
  obtain ⟨osm_id, hOI, h⟩ := exceptBind_ok h
  obtain ⟨lat, hLat, h⟩ := exceptBind_ok h
  obtain ⟨lon, hLon, h⟩ := exceptBind_ok h
  obtain ⟨display_name, hD, h⟩ := exceptBind_ok h
  obtain ⟨class_type, hC, h⟩ := exceptBind_ok h
  obtain ⟨ty, hT, h⟩ := exceptBind_ok h
  obtain ⟨importance, hI, h⟩ := exceptBind_ok h
  have hloc := exceptPure_ok h
  subst hloc
  exact ⟨hA, hP, hL, hOT, hOI, hLat, hLon, hD, hC, hT, hI⟩

theorem build_reverse_dto_ok_elim {lat lon : ℚ} {record : List (String × Json)}
    {dto : ReverseGeocodeResponseDTO}
    (h : NominatimService.build_reverse_dto lat lon (.obj record) = .ok dto) :
    NominatimService.extractAddress record = .ok dto.address ∧
    requireInt record "place_id" = .ok dto.place_id ∧
    getLicence record = .ok dto.licence ∧
    requireStr record "lat" = .ok dto.lat ∧
    requireStr record "lon" = .ok dto.lon ∧
    requireStr record "display_name" = .ok dto.display_name ∧
    dto.lat_input = lat ∧ dto.lon_input = lon := by
  unfold NominatimService.build_reverse_dto at h
  obtain ⟨address, hA, h⟩ := exceptBind_ok h
  obtain ⟨place_id, hP, h⟩ := exceptBind_ok h
  obtain ⟨licence, hL, h⟩ := exceptBind_ok h
  obtain ⟨osm_type, hOT, h⟩ := exceptBind_ok h
  obtain ⟨osm_id, hOI, h⟩ := exceptBind_ok h
  obtain ⟨lat_str, hLat, h⟩ := exceptBind_ok h
  obtain ⟨lon_str, hLon, h⟩ := exceptBind_ok h
  obtain ⟨display_name, hD, h⟩ := exceptBind_ok h
  obtain ⟨class_type, hC, h⟩ := exceptBind_ok h
  obtain ⟨ty, hT, h⟩ := exceptBind_ok h
  have hdto := exceptPure_ok h
  subst hdto
  exact ⟨hA, hP, hL, hLat, hLon, hD, rfl, rfl⟩

/-- A present-but-empty address sub-object is falsy, so no Address is
embedded. -/
theorem extractAddress_of_empty_obj {record : List (String × Json)}
    (h : dictGet record "address" = some (.obj [])) :
    NominatimService.extractAddress record = .ok none := by
  simp [NominatimService.extractAddress, h, Json.truthy]

/-- An Address is embedded only from a present, non-empty address
sub-object. -/
theorem extractAddress_ok_some {record : List (String × Json)} {a : AddressDTO}
    (h : NominatimService.extractAddress record = .ok (some a)) :
    ∃ address_data, dictGet record "address" = some (.obj address_data) ∧
      address_data ≠ [] ∧
      NominatimService.build_address_dto address_data = .ok a := by
  unfold NominatimService.extractAddress at h
  split at h
  · simp at h
  next j heq =>
    split at h
    next ht =>
      split at h
      next address_data =>
        refine ⟨address_data, heq, ?_, ?_⟩
        · intro hnil
          rw [hnil] at ht
          simp [Json.truthy] at ht
        · cases hb : NominatimService.build_address_dto address_data with
          | error e => rw [hb] at h; simp [Except.map] at h
          | ok a' =>
            rw [hb] at h
            simp only [Except.map, Except.ok.injEq, Option.some.injEq] at h
            rw [h]
      · simp at h
    · simp at h

theorem build_address_dto_ok_elim {address_data : List (String × Json)}
    {a : AddressDTO}
    (h : NominatimService.build_address_dto address_data = .ok a) :
    optStr address_data "house_number" = .ok a.house_number ∧
    optStr address_data "road" = .ok a.road ∧
    optStr address_data "neighbourhood" = .ok a.neighbourhood ∧
    optStr address_data "city" = .ok a.city ∧
    optStr address_data "state" = .ok a.state ∧
    optStr address_data "postcode" = .ok a.postcode ∧
    optStr address_data "country" = .ok a.country ∧
    optStr address_data "country_code" = .ok a.country_code := by
  unfold NominatimService.build_address_dto at h
  obtain ⟨v1, h1, h⟩ := exceptBind_ok h
  obtain ⟨v2, h2, h⟩ := exceptBind_ok h
  obtain ⟨v3, h3, h⟩ := exceptBind_ok h
  obtain ⟨v4, h4, h⟩ := exceptBind_ok h
  obtain ⟨v5, h5, h⟩ := exceptBind_ok h
  obtain ⟨v6, h6, h⟩ := exceptBind_ok h
  obtain ⟨v7, h7, h⟩ := exceptBind_ok h
  obtain ⟨v8, h8, h⟩ := exceptBind_ok h
  have ha := exceptPure_ok h
  subst ha
  exact ⟨h1, h2, h3, h4, h5, h6, h7, h8⟩

theorem build_locations_ok_length :
    ∀ {xs : List Json} {ls : List LocationDTO},
      NominatimService.build_locations xs = .ok ls → ls.length = xs.length := by
  intro xs
  induction xs with
  | nil =>
    intro ls h
    simp only [NominatimService.build_locations] at h
    cases h
    rfl
  | cons x rest ih =>
    intro ls h
    unfold NominatimService.build_locations at h
    obtain ⟨l, _, h⟩ := exceptBind_ok h
    obtain ⟨ls', hrest, h⟩ := exceptBind_ok h
    have := exceptPure_ok h
    subst this
    simp [ih hrest]

/-- A failure of the upstream search client is never of the InvalidInput
class. -/
theorem client_search_error_not_invalid {resp : ProviderResponse}
    {e : ServiceError} (h : NominatimClient.search_address resp = .error e) :
    e.isInvalidInput = false := by
  unfold NominatimClient.search_address at h
  split at h
  · cases h; rfl
  · split at h
    · simp at h
    · cases h; rfl

/-- A failure of the upstream reverse client is never of the InvalidInput
class. -/
theorem client_reverse_error_not_invalid {lat lon : ℚ} {resp : ProviderResponse}
    {e : ServiceError}
    (h : NominatimClient.reverse_geocode lat lon resp = .error e) :
    e.isInvalidInput = false := by
  unfold NominatimClient.reverse_geocode at h
  split at h
  · cases h; rfl
  · split at h
    · cases h; rfl
    · simp at h

/-- A successful reverse DTO build echoes the caller coordinates. -/
theorem build_reverse_dto_ok_inputs {lat lon : ℚ} {reverse_data : Json}
    {dto : ReverseGeocodeResponseDTO}
    (h : NominatimService.build_reverse_dto lat lon reverse_data = .ok dto) :
    dto.lat_input = lat ∧ dto.lon_input = lon := by
  cases reverse_data
  case obj record =>
    have := build_reverse_dto_ok_elim h
    exact ⟨this.2.2.2.2.2.2.1, this.2.2.2.2.2.2.2⟩
  all_goals simp [NominatimService.build_reverse_dto] at h

/-- A successful optional string read is the by-name pass-through: an absent
key gives an absent value, a present string is taken unchanged. -/
theorem optStr_ok_spec {fields : List (String × Json)} {k : String}
    {v : Option String} (h : optStr fields k = .ok v) :
    (dictGet fields k = none → v = none) ∧
    (∀ s, dictGet fields k = some (.str s) → v = some s) := by
  constructor
  · intro hn
    rw [optStr_of_none hn] at h
    injection h with h
    exact h.symm
  · intro s hs
    rw [optStr_of_str hs] at h
    injection h with h
    exact h.symm

/-! ### Claim theorems -/

/-- Claim C2 counterexample: a raw record carrying `place_id`, `lat`, `lon`
and `display_name` but no `licence` key does not fail the operation — the
mapping succeeds and builds a Location whose licence is the defaulted empty
string. -/
theorem claim_C2_counterexample :
    dictGet sampleNoLicenceFields "licence" = none ∧
    NominatimService.build_location_dto (.obj sampleNoLicenceFields) =
      .ok sampleNoLicenceLocation ∧
    sampleNoLicenceLocation.licence = "" :=
  ⟨rfl, rfl, rfl⟩

/-- Claim C2 (amended): the mapping to a Location or ReverseResult treats
`place_id`, `lat`, `lon` and `display_name` as mandatory — if any of them is
absent the whole operation fails, and every mapping failure is of the
internal 500 class — while an absent `licence` does not fail the mapping but
is defaulted to the empty string. -/
theorem claim_C2_required_fields :
    (∀ record loc,
        NominatimService.build_location_dto (.obj record) = .ok loc →
        (dictGet record "place_id").isSome ∧ (dictGet record "lat").isSome ∧
        (dictGet record "lon").isSome ∧
        (dictGet record "display_name").isSome ∧
        (dictGet record "licence" = none → loc.licence = "")) ∧
    (∀ j e, NominatimService.build_location_dto j = .error e →
        e.statusCode = 500) ∧
    (∀ lat lon record dto,
        NominatimService.build_reverse_dto lat lon (.obj record) = .ok dto →
        (dictGet record "place_id").isSome ∧ (dictGet record "lat").isSome ∧
        (dictGet record "lon").isSome ∧
        (dictGet record "display_name").isSome ∧
        (dictGet record "licence" = none → dto.licence = "")) ∧
    (∀ lat lon j e,
        NominatimService.build_reverse_dto lat lon j = .error e →
        e.statusCode = 500) := by
  refine ⟨?_, ?_, ?_, ?_⟩
  · intro record loc h
    obtain ⟨_, hP, hL, _, _, hLat, hLon, hD, _⟩ := build_location_dto_ok_elim h
    refine ⟨requireInt_ok_isSome hP, ?_, ?_, ?_, ?_⟩
    · rw [requireStr_ok hLat]; rfl
    · rw [requireStr_ok hLon]; rfl
    · rw [requireStr_ok hD]; rfl
    · intro hn
      rw [getLicence_of_none hn] at hL
      injection hL with hL
      exact hL.symm
  · intro j e h
    obtain ⟨f, hf⟩ := build_location_dto_error_shape h
    rw [hf]; rfl
  · intro lat lon record dto h
    obtain ⟨_, hP, hL, hLat, hLon, hD, _, _⟩ := build_reverse_dto_ok_elim h
    refine ⟨requireInt_ok_isSome hP, ?_, ?_, ?_, ?_⟩
    · rw [requireStr_ok hLat]; rfl
    · rw [requireStr_ok hLon]; rfl
    · rw [requireStr_ok hD]; rfl
    · intro hn
      rw [getLicence_of_none hn] at hL
      injection hL with hL
      exact hL.symm
  · intro lat lon j e h
    obtain ⟨f, hf⟩ := build_reverse_dto_error_shape h
    rw [hf]; rfl

/-- Claim C2 witness: the amended statement applied to the concrete
licence-free record. -/
theorem claim_C2_required_fields_witness :
    (dictGet sampleNoLicenceFields "place_id").isSome ∧
    (dictGet sampleNoLicenceFields "lat").isSome ∧
    (dictGet sampleNoLicenceFields "lon").isSome ∧
    (dictGet sampleNoLicenceFields "display_name").isSome ∧
    sampleNoLicenceLocation.licence = "" := by
  have h := claim_C2_required_fields.1 sampleNoLicenceFields
    sampleNoLicenceLocation rfl
  exact ⟨h.1, h.2.1, h.2.2.1, h.2.2.2.1, h.2.2.2.2 rfl⟩

/-- Claim C3 counterexample: a search request with limit 0 (out of range)
is answered with status 422, not 400. -/
theorem claim_C3_counterexample :
    searchEndpointStatus "Madrid" 0 ⟨200, .arr [sampleFullRecord]⟩ = 422 ∧
    (422 : Nat) ≠ 400 :=
  ⟨rfl, by decide⟩

/-- Claim C3 (amended): every search request whose limit is outside 1..50
is rejected by the parameter layer with status 422 (the
RequestValidationError handler), not 400. -/
theorem claim_C3_limit_out_of_range (q : String) (limit : ℤ)
    (resp : ProviderResponse) (h : limit < 1 ∨ 50 < limit) :
    searchEndpointStatus q limit resp = 422 := by
  unfold searchEndpointStatus
  rw [if_pos h]

/-- Claim C3 witness: the amended statement at limit 51. -/
theorem claim_C3_limit_out_of_range_witness :
    searchEndpointStatus "Madrid" 51 ⟨200, .arr [sampleFullRecord]⟩ = 422 :=
  claim_C3_limit_out_of_range "Madrid" 51 ⟨200, .arr [sampleFullRecord]⟩
    (by decide)

/-- Claim C7: an empty upstream result list makes `search_address` fail with
NotFound (404), and no successful search ever carries an empty results
sequence. -/
theorem claim_C7_no_empty_search_result :
    (∀ query limit resp,
        NominatimClient.search_address resp = .ok ([] : List Json) →
        ¬ (pyStrip query).isEmpty →
        NominatimService.search_address query limit resp =
          .error (.noSearchResults (pyStrip query)) ∧
        (ServiceError.noSearchResults (pyStrip query)).statusCode = 404) ∧
    (∀ query limit resp r,
        NominatimService.search_address query limit resp = .ok r →
        r.results ≠ []) := by
  constructor
  · intro query limit resp hclient hq
    refine ⟨?_, rfl⟩
    unfold NominatimService.search_address
    rw [if_neg hq, hclient]
    rfl
  · intro query limit resp r h
    unfold NominatimService.search_address at h
    split at h
    · simp at h
    · obtain ⟨search_data, hc, h⟩ := exceptBind_ok h
      split at h
      · simp at h
      next hempty =>
        obtain ⟨locations, hb, h⟩ := exceptBind_ok h
        cases h
        intro hnil
        replace hnil : locations = [] := hnil
        have hlen := build_locations_ok_length hb
        rw [hnil] at hlen
        cases search_data with
        | nil => exact hempty rfl
        | cons x xs => simp at hlen

/-- Claim C7 witness: the first part applied to a concrete empty provider
list. -/
theorem claim_C7_no_empty_search_result_witness :
    NominatimService.search_address "Madrid" 10 ⟨200, .arr []⟩ =
      .error (.noSearchResults "Madrid") := by
  have h := claim_C7_no_empty_search_result.1 "Madrid" 10 ⟨200, .arr []⟩
    rfl (by decide)
  exact h.1

/-- Claim C8: every successful reverse lookup echoes the caller-supplied
coordinates in `lat_input` and `lon_input`, whatever the provider payload
contained. -/
theorem claim_C8_reverse_echoes_inputs (lat lon : ℚ) (resp : ProviderResponse)
    (r : ReverseGeocodeResponseDTO)
    (h : NominatimService.reverse_geocode lat lon resp = .ok r) :
    r.lat_input = lat ∧ r.lon_input = lon := by
  unfold NominatimService.reverse_geocode at h
  split at h
  · simp at h
  · split at h
    · simp at h
    · obtain ⟨reverse_data, hc, hb⟩ := exceptBind_ok h
      exact build_reverse_dto_ok_inputs hb

/-- Claim C8 witness: a reverse lookup against a payload whose own lat/lon
strings differ from the caller coordinates still echoes the caller
coordinates. -/
theorem claim_C8_reverse_echoes_inputs_witness :
    (NominatimService.reverse_geocode 37 (-122)
        ⟨200, .obj sampleNoLicenceFields⟩ =
      .ok { place_id := 5, licence := "", osm_type := none, osm_id := none,
            lat := "1.0", lon := "2.0", display_name := "X",
            class_type := none, type := none, address := none,
            lat_input := 37, lon_input := -122 }) ∧
    ({ place_id := 5, licence := "", osm_type := none, osm_id := none,
       lat := "1.0", lon := "2.0", display_name := "X",
       class_type := none, type := none, address := none,
       lat_input := 37, lon_input := -122 :
       ReverseGeocodeResponseDTO }.lat_input = 37 ∧
     { place_id := 5, licence := "", osm_type := none, osm_id := none,
       lat := "1.0", lon := "2.0", display_name := "X",
       class_type := none, type := none, address := none,
       lat_input := 37, lon_input := -122 :
       ReverseGeocodeResponseDTO }.lon_input = -122) := by
  refine ⟨rfl, ?_⟩
  exact claim_C8_reverse_echoes_inputs 37 (-122)
    ⟨200, .obj sampleNoLicenceFields⟩
    { place_id := 5, licence := "", osm_type := none, osm_id := none,
      lat := "1.0", lon := "2.0", display_name := "X",
      class_type := none, type := none, address := none,
      lat_input := 37, lon_input := -122 } rfl

/-- Claim C1: for a query that is non-empty after stripping, a limit within
1..50 and a provider list of N ≥ 1 records that all map successfully,
`search_address` returns a SearchResult whose results are the per-record
Location mapping in the provider order, whose total is N and whose query
is the stripped input. -/
theorem claim_C1_search_success (query : String) (limit : ℤ)
    (resp : ProviderResponse) (raw : List Json)
    (locations : List LocationDTO)
    (hquery : ¬ (pyStrip query).isEmpty)
    (hlimit : 1 ≤ limit ∧ limit ≤ 50)
    (hclient : NominatimClient.search_address resp = .ok raw)
    (hnonempty : raw ≠ [])
    (hmap : NominatimService.build_locations raw = .ok locations) :
    NominatimService.search_address query limit resp =
      .ok ⟨locations, raw.length, pyStrip query⟩ := by
  have hempty : raw.isEmpty = false := by
    cases raw with
    | nil => exact absurd rfl hnonempty
    | cons _ _ => rfl
  have hlen := build_locations_ok_length hmap
  unfold NominatimService.search_address
  rw [if_neg hquery, hclient]
  simp [Bind.bind, Except.bind, hempty, hmap, hlen]

/-- Claim C1 witness: the theorem applied to a concrete one-record provider
response. -/
theorem claim_C1_search_success_witness :
    NominatimService.search_address "  1600 Amphitheatre Parkway  " 10
        ⟨200, .arr [sampleFullRecord]⟩ =
      .ok ⟨[sampleFullLocation], 1, "1600 Amphitheatre Parkway"⟩ :=
  claim_C1_search_success "  1600 Amphitheatre Parkway  " 10
    ⟨200, .arr [sampleFullRecord]⟩ [sampleFullRecord] [sampleFullLocation]
    (by decide) (by decide) rfl (List.cons_ne_nil _ _) rfl

/-- Claim C4: a raw record carrying every optional field (with well-typed
values, the address sub-object present and non-empty) maps to a Location
reproducing each optional value unchanged, the raw `class` key carried as
`class_type`. -/
theorem claim_C4_optional_round_trip (record : List (String × Json))
    (pid oid : ℤ) (lic latS lonS dn ot cls ty : String) (imp : ℚ)
    (address_data : List (String × Json)) (addr : AddressDTO)
    (h1 : dictGet record "place_id" = some (.num (pid : ℚ)))
    (h2 : dictGet record "licence" = some (.str lic))
    (h3 : dictGet record "osm_type" = some (.str ot))
    (h4 : dictGet record "osm_id" = some (.num (oid : ℚ)))
    (h5 : dictGet record "lat" = some (.str latS))
    (h6 : dictGet record "lon" = some (.str lonS))
    (h7 : dictGet record "display_name" = some (.str dn))
    (h8 : dictGet record "class" = some (.str cls))
    (h9 : dictGet record "type" = some (.str ty))
    (h10 : dictGet record "importance" = some (.num imp))
    (h11 : dictGet record "address" = some (.obj address_data))
    (h12 : address_data ≠ [])
    (h13 : NominatimService.build_address_dto address_data = .ok addr) :
    NominatimService.build_location_dto (.obj record) =
      .ok { place_id := pid, licence := lic, osm_type := some ot,
            osm_id := some oid, lat := latS, lon := lonS,
            display_name := dn, class_type := some cls, type := some ty,
            importance := some imp, address := some addr } := by
  have hne : address_data.isEmpty = false := by
    cases address_data with
    | nil => exact absurd rfl h12
    | cons _ _ => rfl
  have hextract := extractAddress_of_obj h11 hne h13
  simp only [NominatimService.build_location_dto]
  rw [hextract, requireInt_of_int h1, getLicence_of_str h2, optStr_of_str h3,
      optInt_of_int h4, requireStr_of_str h5, requireStr_of_str h6,
      requireStr_of_str h7, optStr_of_str h8, optStr_of_str h9,
      optNum_of_num h10]
  rfl

/-- Claim C4 witness: the theorem applied to the concrete full record. -/
theorem claim_C4_optional_round_trip_witness :
    NominatimService.build_location_dto (.obj sampleFullFields) =
      .ok sampleFullLocation :=
  claim_C4_optional_round_trip sampleFullFields 123456 99 "Data ODbL"
    "37.4224764" "-122.0842499" "1600 Amphitheatre Parkway" "way" "place"
    "house" (1/2) [("road", .str "Amphitheatre Parkway")] sampleFullAddress
    rfl rfl rfl rfl rfl rfl rfl rfl rfl rfl rfl (List.cons_ne_nil _ _) rfl

/-- Claim C5: the InvalidInput failures (status 400) arise exactly from an
empty stripped search query and from out-of-range reverse coordinates, and
in each such case the outbound client call is never reached. -/
theorem claim_C5_invalid_input_exactly :
    (ServiceError.emptyQuery.statusCode = 400 ∧
     ServiceError.latOutOfRange.statusCode = 400 ∧
     ServiceError.lonOutOfRange.statusCode = 400) ∧
    (∀ query limit resp,
        ((pyStrip query).isEmpty →
          NominatimService.search_address query limit resp =
            .error .emptyQuery ∧
          NominatimService.search_reaches_upstream query = false) ∧
        (∀ e, NominatimService.search_address query limit resp = .error e →
          e.isInvalidInput = true → (pyStrip query).isEmpty)) ∧
    (∀ lat lon resp,
        ((lat < -90 ∨ 90 < lat) →
          NominatimService.reverse_geocode lat lon resp =
            .error .latOutOfRange ∧
          NominatimService.reverse_reaches_upstream lat lon = false) ∧
        ((-90 ≤ lat ∧ lat ≤ 90) → (lon < -180 ∨ 180 < lon) →
          NominatimService.reverse_geocode lat lon resp =
            .error .lonOutOfRange ∧
          NominatimService.reverse_reaches_upstream lat lon = false) ∧
        (∀ e, NominatimService.reverse_geocode lat lon resp = .error e →
          e.isInvalidInput = true →
          (lat < -90 ∨ 90 < lat ∨ lon < -180 ∨ 180 < lon))) := by
  refine ⟨⟨rfl, rfl, rfl⟩, ?_, ?_⟩
  · intro query limit resp
    constructor
    · intro hq
      constructor
      · unfold NominatimService.search_address
        rw [if_pos hq]
      · simp [NominatimService.search_reaches_upstream, hq]
    · intro e he hinv
      by_cases hq : (pyStrip query).isEmpty
      · exact hq
      · exfalso
        unfold NominatimService.search_address at he
        rw [if_neg hq] at he
        rcases exceptBind_error he with he | ⟨search_data, _, he⟩
        · rw [client_search_error_not_invalid he] at hinv
          exact Bool.false_ne_true hinv
        · split at he
          · cases he
            exact Bool.false_ne_true hinv
          · rcases exceptBind_error he with he | ⟨locations, _, he⟩
            · obtain ⟨f, hf⟩ := build_locations_error_shape he
              rw [hf] at hinv
              exact Bool.false_ne_true hinv
            · simp at he
  · intro lat lon resp
    refine ⟨?_, ?_, ?_⟩
    · intro h
      have hcond : ¬ (-90 ≤ lat ∧ lat ≤ 90) := by
        rcases h with h | h
        · exact fun hc => absurd hc.1 (not_le.mpr h)
        · exact fun hc => absurd hc.2 (not_le.mpr h)
      constructor
      · unfold NominatimService.reverse_geocode
        rw [if_pos hcond]
      · simp [NominatimService.reverse_reaches_upstream, hcond]
    · intro hlat h
      have hcond : ¬ (-180 ≤ lon ∧ lon ≤ 180) := by
        rcases h with h | h
        · exact fun hc => absurd hc.1 (not_le.mpr h)
        · exact fun hc => absurd hc.2 (not_le.mpr h)
      constructor
      · unfold NominatimService.reverse_geocode
        rw [if_neg (not_not_intro hlat), if_pos hcond]
      · simp [NominatimService.reverse_reaches_upstream, hcond]
    · intro e he hinv
      by_cases hlat : -90 ≤ lat ∧ lat ≤ 90
      · by_cases hlon : -180 ≤ lon ∧ lon ≤ 180
        · exfalso
          unfold NominatimService.reverse_geocode at he
          rw [if_neg (not_not_intro hlat), if_neg (not_not_intro hlon)] at he
          rcases exceptBind_error he with he | ⟨reverse_data, _, he⟩
          · rw [client_reverse_error_not_invalid he] at hinv
            exact Bool.false_ne_true hinv
          · obtain ⟨f, hf⟩ := build_reverse_dto_error_shape he
            rw [hf] at hinv
            exact Bool.false_ne_true hinv
        · rcases not_and_or.mp hlon with h | h
          · exact Or.inr (Or.inr (Or.inl (not_le.mp h)))
          · exact Or.inr (Or.inr (Or.inr (not_le.mp h)))
      · rcases not_and_or.mp hlat with h | h
        · exact Or.inl (not_le.mp h)
        · exact Or.inr (Or.inl (not_le.mp h))

/-- Claim C5 witness: the theorem applied to a whitespace-only query and to
out-of-range coordinates. -/
theorem claim_C5_invalid_input_exactly_witness :
    (NominatimService.search_address "   " 3 ⟨200, .arr []⟩ =
       .error .emptyQuery ∧
     NominatimService.search_reaches_upstream "   " = false) ∧
    (NominatimService.reverse_geocode 91 0 ⟨200, .obj []⟩ =
       .error .latOutOfRange ∧
     NominatimService.reverse_reaches_upstream 91 0 = false) ∧
    (NominatimService.reverse_geocode 45 181 ⟨200, .obj []⟩ =
       .error .lonOutOfRange ∧
     NominatimService.reverse_reaches_upstream 45 181 = false) := by
  refine ⟨?_, ?_, ?_⟩
  · exact (claim_C5_invalid_input_exactly.2.1 "   " 3 ⟨200, .arr []⟩).1
      (by decide)
  · exact (claim_C5_invalid_input_exactly.2.2 91 0 ⟨200, .obj []⟩).1
      (Or.inr (by norm_num))
  · exact (claim_C5_invalid_input_exactly.2.2 45 181 ⟨200, .obj []⟩).2.1
      (by norm_num) (Or.inr (by norm_num))

/-- Claim C6: a reverse lookup whose provider response has status 200 but
whose decoded body carries an `"error"` field fails with NotFound (404):
the payload content, not the HTTP status, decides the outcome. -/
theorem claim_C6_reverse_payload_error (lat lon : ℚ)
    (resp : ProviderResponse) (fields : List (String × Json)) (v : Json)
    (hlat : -90 ≤ lat ∧ lat ≤ 90) (hlon : -180 ≤ lon ∧ lon ≤ 180)
    (hstatus : resp.status = 200) (hbody : resp.body = .obj fields)
    (herr : dictGet fields "error" = some v) :
    NominatimService.reverse_geocode lat lon resp =
      .error (.noAddressFound lat lon) ∧
    (ServiceError.noAddressFound lat lon).statusCode = 404 := by
  refine ⟨?_, rfl⟩
  have hfield : NominatimClient.bodyHasErrorField (.obj fields) = true := by
    simp [NominatimClient.bodyHasErrorField, herr]
  unfold NominatimService.reverse_geocode NominatimClient.reverse_geocode
  rw [if_neg (not_not_intro hlat), if_neg (not_not_intro hlon), hstatus,
      hbody]
  simp [hfield, Bind.bind, Except.bind]

/-- Claim C6 witness: the theorem applied to the documented
"Unable to geocode" payload. -/
theorem claim_C6_reverse_payload_error_witness :
    NominatimService.reverse_geocode 37 (-122)
        ⟨200, .obj [("error", .str "Unable to geocode")]⟩ =
      .error (.noAddressFound 37 (-122)) :=
  (claim_C6_reverse_payload_error 37 (-122)
    ⟨200, .obj [("error", .str "Unable to geocode")]⟩
    [("error", .str "Unable to geocode")] (.str "Unable to geocode")
    (by norm_num) (by norm_num) rfl rfl rfl).1

/-- Claim C9: the Address built from a raw address sub-object takes each of
the eight fields by name when present as a string, and an absent key yields
an absent field. -/
theorem claim_C9_address_by_name (address_data : List (String × Json))
    (a : AddressDTO)
    (h : NominatimService.build_address_dto address_data = .ok a) :
    ((dictGet address_data "house_number" = none → a.house_number = none) ∧
     (∀ s, dictGet address_data "house_number" = some (.str s) →
        a.house_number = some s)) ∧
    ((dictGet address_data "road" = none → a.road = none) ∧
     (∀ s, dictGet address_data "road" = some (.str s) → a.road = some s)) ∧
    ((dictGet address_data "neighbourhood" = none → a.neighbourhood = none) ∧
     (∀ s, dictGet address_data "neighbourhood" = some (.str s) →
        a.neighbourhood = some s)) ∧
    ((dictGet address_data "city" = none → a.city = none) ∧
     (∀ s, dictGet address_data "city" = some (.str s) → a.city = some s)) ∧
    ((dictGet address_data "state" = none → a.state = none) ∧
     (∀ s, dictGet address_data "state" = some (.str s) →
        a.state = some s)) ∧
    ((dictGet address_data "postcode" = none → a.postcode = none) ∧
     (∀ s, dictGet address_data "postcode" = some (.str s) →
        a.postcode = some s)) ∧
    ((dictGet address_data "country" = none → a.country = none) ∧
     (∀ s, dictGet address_data "country" = some (.str s) →
        a.country = some s)) ∧
    ((dictGet address_data "country_code" = none → a.country_code = none) ∧
     (∀ s, dictGet address_data "country_code" = some (.str s) →
        a.country_code = some s)) := by
  obtain ⟨h1, h2, h3, h4, h5, h6, h7, h8⟩ := build_address_dto_ok_elim h
  exact ⟨optStr_ok_spec h1, optStr_ok_spec h2, optStr_ok_spec h3,
         optStr_ok_spec h4, optStr_ok_spec h5, optStr_ok_spec h6,
         optStr_ok_spec h7, optStr_ok_spec h8⟩

/-- Claim C9 witness: a sub-object with only a road yields an Address whose
postcode is absent and whose road is the named value. -/
theorem claim_C9_address_by_name_witness :
    sampleFullAddress.postcode = none ∧
    sampleFullAddress.road = some "Amphitheatre Parkway" := by
  have h := claim_C9_address_by_name
    [("road", .str "Amphitheatre Parkway")] sampleFullAddress rfl
  exact ⟨h.2.2.2.2.2.1.1 rfl, h.2.1.2 "Amphitheatre Parkway" rfl⟩

/-- Claim C10: a raw record whose address key maps to an empty sub-object
yields a search Location or reverse result with no embedded Address, and an
Address is embedded only when the sub-object is present and non-empty. -/
theorem claim_C10_empty_address_not_embedded :
    (∀ record loc,
        NominatimService.build_location_dto (.obj record) = .ok loc →
        dictGet record "address" = some (.obj []) → loc.address = none) ∧
    (∀ lat lon record dto,
        NominatimService.build_reverse_dto lat lon (.obj record) = .ok dto →
        dictGet record "address" = some (.obj []) → dto.address = none) ∧
    (∀ record loc a,
        NominatimService.build_location_dto (.obj record) = .ok loc →
        loc.address = some a →
        ∃ address_data, dictGet record "address" = some (.obj address_data) ∧
          address_data ≠ []) ∧
    (∀ lat lon record dto a,
        NominatimService.build_reverse_dto lat lon (.obj record) = .ok dto →
        dto.address = some a →
        ∃ address_data, dictGet record "address" = some (.obj address_data) ∧
          address_data ≠ []) := by
  refine ⟨?_, ?_, ?_, ?_⟩
  · intro record loc h hempty
    have hA := (build_location_dto_ok_elim h).1
    rw [extractAddress_of_empty_obj hempty] at hA
    injection hA with hA
    exact hA.symm
  · intro lat lon record dto h hempty
    have hA := (build_reverse_dto_ok_elim h).1
    rw [extractAddress_of_empty_obj hempty] at hA
    injection hA with hA
    exact hA.symm
  · intro record loc a h hsome
    have hA := (build_location_dto_ok_elim h).1
    rw [hsome] at hA
    obtain ⟨address_data, hk, hne, _⟩ := extractAddress_ok_some hA
    exact ⟨address_data, hk, hne⟩
  · intro lat lon record dto a h hsome
    have hA := (build_reverse_dto_ok_elim h).1
    rw [hsome] at hA
    obtain ⟨address_data, hk, hne, _⟩ := extractAddress_ok_some hA
    exact ⟨address_data, hk, hne⟩

/-- Claim C10 witness: the theorem applied to the concrete record with an
empty address sub-object. -/
theorem claim_C10_empty_address_not_embedded_witness :
    sampleEmptyAddressLocation.address = none :=
  claim_C10_empty_address_not_embedded.1 sampleEmptyAddressFields
    sampleEmptyAddressLocation rfl rfl

end AddressAPI
